import Mathlib

/-!
Shallow embedding of the cicd-demo request dispatcher: the route table of
src/routes/index.js together with the middleware chain of src/app.js
(routes, then the error-handler middleware, then the 404 fallback).
-/

namespace CicdDemo

/-- JSON values as the handlers produce them: strings, numbers (the only
numeric payloads here are the health endpoint's clock readings, modelled as
integers), and objects with an ordered field list. -/
inductive Json where
  | str (s : String) : Json
  | num (n : Int) : Json
  | obj (fields : List (String × Json)) : Json

/-- A thrown internal fault (a JS error object reaching the error-handler
middleware): an optional numeric `status` property — `none` models an
absent, `undefined` or `null` property, `some 0` a property holding the
number 0 — and a `message`. -/
structure Fault where
  status : Option Int
  message : String

/-- A finished HTTP response: a status code and a JSON body. -/
structure Response where
  status : Int
  body : Json

/-- The outcome of running a matched route handler: either a completed
response, or a fault thrown during handling that propagates to the
error-handler middleware. -/
inductive Outcome where
  | ok (r : Response) : Outcome
  | fault (e : Fault) : Outcome

/-- Handler for `GET /` in src/routes/index.js: the fixed welcome body. -/
def homeHandler : Response :=
  ⟨200, .obj [("message", .str "Welcome to our API!")]⟩

/-- Handler for `GET /api/health` in src/routes/index.js: passes the ambient
clock readings — `new Date()` and `process.uptime()` — through into the
body verbatim. -/
def healthHandler (now uptime : Int) : Response :=
  ⟨200, .obj [("status", .str "ok"), ("timestamp", .num now),
              ("uptime", .num uptime)]⟩

/-- Handler for `GET /api/users/:id` in src/routes/index.js: the hard-coded
record when the captured id string equals "123", else a 404 error body. -/
def userHandler (id : String) : Response :=
  if id = "123" then
    ⟨200, .obj [("id", .str "123"), ("name", .str "John Doe"),
                ("email", .str "john@example.com")]⟩
  else
    ⟨404, .obj [("error", .obj [("message", .str "User not found")])]⟩

/-- Split a path's character list at every slash into its segments. -/
def splitSlash : List Char → List (List Char)
  | [] => [[]]
  | c :: cs =>
    if c = '/' then [] :: splitSlash cs
    else
      match splitSlash cs with
      | s :: rest => (c :: s) :: rest
      | [] => [[c]]

/-- Capture of the `:id` path parameter of the pattern `/api/users/:id`:
the single non-empty segment after `/api/users/`, taken verbatim. -/
def extractUserId (path : String) : Option String :=
  match splitSlash path.toList with
  | [pre, seg1, seg2, id] =>
    if pre = [] ∧ seg1 = "api".toList ∧ seg2 = "users".toList ∧ id ≠ [] then
      some (String.mk id)
    else none
  | _ => none

/-- The route table of src/routes/index.js: match the request's method and
path against the three declared routes in order and run the matched
handler, producing its outcome; `none` when no route matches. -/
def runRoutes (now uptime : Int) (method path : String) : Option Outcome :=
  if method = "GET" then
    if path = "/" then some (.ok homeHandler)
    else if path = "/api/health" then
      some (.ok (healthHandler now uptime))
    else
      match extractUserId path with
      | some id => some (.ok (userHandler id))
      | none => none
  else none

/-- The status selection `err.status || 500` of the error handler in
src/app.js: a declared nonzero status is used; an absent (undefined/null)
or zero status is falsy in JS, so the `||` falls back to 500. -/
def faultStatus : Option Int → Int
  | some s => if s = 0 then 500 else s
  | none => 500

/-- The error-handler middleware of src/app.js: wraps the fault's message
in the error envelope and selects the status with `err.status || 500`. -/
def errorHandler (e : Fault) : Response :=
  ⟨faultStatus e.status,
   .obj [("error", .obj [("message", .str e.message)])]⟩

/-- The 404 fallback middleware of src/app.js. -/
def notFoundResponse : Response :=
  ⟨404, .obj [("error", .obj [("message", .str "Not Found")])]⟩

/-- The tail of the middleware chain of src/app.js applied to the routing
outcome: a completed response stands; a fault thrown by a handler is caught
by the error-handler middleware; an unmatched request falls through to the
404 fallback. -/
def finishChain : Option Outcome → Response
  | some (.ok r) => r
  | some (.fault e) => errorHandler e
  | none => notFoundResponse

/-- The full dispatcher of src/app.js: route the request, then run the
error handler or the 404 fallback as the outcome demands. -/
def dispatch (now uptime : Int) (method path : String) : Response :=
  finishChain (runRoutes now uptime method path)

/-- Look up a top-level field of a JSON object body. -/
def getField (j : Json) (k : String) : Option Json :=
  match j with
  | .obj fields => (fields.find? (fun kv => kv.1 == k)).map (fun kv => kv.2)
  | _ => none

/-- Erase the time-dependent fields (`timestamp` and `uptime`) from a
response body, for comparing responses up to clock readings. -/
def scrubTime : Json → Json
  | .obj fields =>
      .obj (fields.filter (fun kv => !(kv.1 == "timestamp" || kv.1 == "uptime")))
  | j => j

/-- The error envelope shape: an object with a single field `error` holding
an object with a single string field `message`. -/
def isErrorEnvelope (j : Json) : Prop :=
  ∃ s, j = .obj [("error", .obj [("message", .str s)])]

/-- A 2xx (success) status code. -/
def is2xx (s : Int) : Prop := 200 ≤ s ∧ s < 300

/-- Helper: routing either matches nothing or completes one of the three
handlers; no other outcome — in particular no fault — is ever produced. -/
theorem runRoutes_shape (now uptime : Int) (method path : String) :
    runRoutes now uptime method path = none ∨
    runRoutes now uptime method path = some (.ok homeHandler) ∨
    runRoutes now uptime method path = some (.ok (healthHandler now uptime)) ∨
    ∃ id, runRoutes now uptime method path = some (.ok (userHandler id)) := by
  by_cases hm : method = "GET"
  · by_cases h1 : path = "/"
    · right; left; simp [runRoutes, hm, h1]
    · by_cases h2 : path = "/api/health"
      · right; right; left; simp [runRoutes, hm, h1, h2]
      · cases hid : extractUserId path with
        | none => left; simp [runRoutes, hm, h1, h2, hid]
        | some id =>
            right; right; right
            exact ⟨id, by simp [runRoutes, hm, h1, h2, hid]⟩
  · left; simp [runRoutes, hm]

/-- C2: every request whose (method, path) pair matches no defined route is
answered with status 404 and body exactly the "Not Found" error envelope. -/
theorem unmatched_request_gets_not_found (now uptime : Int) (method path : String)
    (h : runRoutes now uptime method path = none) :
    dispatch now uptime method path =
      ⟨404, .obj [("error", .obj [("message", .str "Not Found")])]⟩ := by
  simp [dispatch, h, finishChain, notFoundResponse]

/-- Witness for C2 at the concrete unmatched request `GET /nonexistent`. -/
theorem unmatched_request_gets_not_found_witness :
    runRoutes 0 0 "GET" "/nonexistent" = none ∧
    dispatch 0 0 "GET" "/nonexistent" =
      ⟨404, .obj [("error", .obj [("message", .str "Not Found")])]⟩ :=
  ⟨rfl, unmatched_request_gets_not_found 0 0 "GET" "/nonexistent" rfl⟩

/-- C3: `GET /api/users/123` is answered, whatever the clock readings, with
status 200 and exactly the hard-coded John Doe record. -/
theorem get_user_123_fixed_record (now uptime : Int) :
    dispatch now uptime "GET" "/api/users/123" =
      ⟨200, .obj [("id", .str "123"), ("name", .str "John Doe"),
                  ("email", .str "john@example.com")]⟩ := rfl

/-- C4: whenever the `:id` capture of `GET /api/users/:id` yields a string
other than "123" — the comparison is plain string equality, with no
coercion — the response is status 404 with the "User not found" envelope. -/
theorem get_user_other_not_found (now uptime : Int) (path id : String)
    (hid : extractUserId path = some id) (hne : id ≠ "123") :
    dispatch now uptime "GET" path =
      ⟨404, .obj [("error", .obj [("message", .str "User not found")])]⟩ := by
  have h1 : path ≠ "/" := by
    rintro rfl
    exact Option.noConfusion ((rfl : extractUserId "/" = none) ▸ hid)
  have h2 : path ≠ "/api/health" := by
    rintro rfl
    exact Option.noConfusion ((rfl : extractUserId "/api/health" = none) ▸ hid)
  simp [dispatch, runRoutes, h1, h2, hid, finishChain, userHandler, hne]

/-- Witness for C4 at the concrete request `GET /api/users/999`. -/
theorem get_user_other_not_found_witness :
    extractUserId "/api/users/999" = some "999" ∧ "999" ≠ "123" ∧
    dispatch 0 0 "GET" "/api/users/999" =
      ⟨404, .obj [("error", .obj [("message", .str "User not found")])]⟩ :=
  ⟨rfl, by decide, get_user_other_not_found 0 0 "/api/users/999" "999" rfl (by decide)⟩

/-- C8: every fault thrown during handling is caught at the dispatch
boundary — the middleware chain turns it into the error handler's finished
response (an error envelope carrying the fault's message) instead of
letting it escape. -/
theorem fault_caught_at_boundary (e : Fault) :
    finishChain (some (.fault e)) = errorHandler e ∧
    isErrorEnvelope (finishChain (some (.fault e))).body :=
  ⟨rfl, ⟨e.message, rfl⟩⟩

/-- C10: a fault whose declared status is falsy — absent, undefined/null,
or the number 0 — is answered with status 500, because the handler selects
the status with the falsy-or `err.status || 500`. -/
theorem falsy_fault_status_becomes_500 (e : Fault)
    (h : e.status = none ∨ e.status = some 0) :
    (finishChain (some (.fault e))).status = 500 := by
  rcases h with h | h <;> simp [finishChain, errorHandler, faultStatus, h]

/-- Witness for C10 at the concrete fault with declared status 0. -/
theorem falsy_fault_status_becomes_500_witness :
    ((Fault.mk (some 0) "zero status").status = none ∨
      (Fault.mk (some 0) "zero status").status = some 0) ∧
    (finishChain (some (.fault (Fault.mk (some 0) "zero status")))).status = 500 :=
  ⟨Or.inr rfl,
   falsy_fault_status_becomes_500 (Fault.mk (some 0) "zero status") (Or.inr rfl)⟩

/-- C1 counterexample: the fault `status = 0, message = "boom"` declares a
status, yet the dispatcher answers with 500, not with the declared 0 — the
claim "the status declared on the fault if it declares one" fails. -/
theorem declared_zero_status_not_used :
    (Fault.mk (some 0) "boom").status = some 0 ∧
    (finishChain (some (.fault (Fault.mk (some 0) "boom")))).status ≠ 0 := by
  exact ⟨rfl, by decide⟩

/-- C1 (amended): a fault thrown by a handler is answered by the error
handler — which runs before the 404 fallback in the chain — with the
fault's message in the error envelope, and with the declared status when it
is truthy (nonzero), else 500. -/
theorem error_handler_policy (e : Fault) :
    finishChain (some (.fault e)) = errorHandler e ∧
    (finishChain (some (.fault e))).body =
      .obj [("error", .obj [("message", .str e.message)])] ∧
    (finishChain (some (.fault e))).status =
      (match e.status with
       | some s => if s = 0 then 500 else s
       | none => 500) :=
  ⟨rfl, rfl, rfl⟩

/-- C5: the dispatcher — a total function producing exactly one response
with exactly one status code per request — always returns one of two
shapes: a success body with a 2xx status, or the error envelope with a
non-2xx status. -/
theorem response_envelope_shape (now uptime : Int) (method path : String) :
    is2xx (dispatch now uptime method path).status ∨
    (isErrorEnvelope (dispatch now uptime method path).body ∧
      ¬ is2xx (dispatch now uptime method path).status) := by
  rcases runRoutes_shape now uptime method path with h | h | h | ⟨id, h⟩
  · right
    exact ⟨⟨"Not Found", by simp [dispatch, h, finishChain, notFoundResponse]⟩,
           by simp [dispatch, h, finishChain, notFoundResponse, is2xx]⟩
  · left; simp [dispatch, h, finishChain, homeHandler, is2xx]
  · left; simp [dispatch, h, finishChain, healthHandler, is2xx]
  · by_cases hid : id = "123"
    · left; simp [dispatch, h, finishChain, userHandler, hid, is2xx]
    · right
      exact ⟨⟨"User not found", by simp [dispatch, h, finishChain, userHandler, hid]⟩,
             by simp [dispatch, h, finishChain, userHandler, hid, is2xx]⟩

/-- C6: `GET /api/health` always answers 200 with status field "ok", and
the uptime field passes the ambient process-uptime reading through: given
that those readings are non-negative and non-decreasing across two calls in
one process lifetime, the returned uptime fields are non-negative and
non-decreasing. -/
theorem health_ok_uptime_monotone (n1 u1 n2 u2 : Int)
    (h0 : 0 ≤ u1) (hmono : u1 ≤ u2) :
    (dispatch n1 u1 "GET" "/api/health").status = 200 ∧
    getField (dispatch n1 u1 "GET" "/api/health").body "status" =
      some (.str "ok") ∧
    ∃ v1 v2 : Int,
      getField (dispatch n1 u1 "GET" "/api/health").body "uptime" =
        some (.num v1) ∧
      getField (dispatch n2 u2 "GET" "/api/health").body "uptime" =
        some (.num v2) ∧
      0 ≤ v1 ∧ v1 ≤ v2 :=
  ⟨rfl, rfl, u1, u2, rfl, rfl, h0, hmono⟩

/-- Witness for C6 at clock readings (now 5, uptime 1) then (now 7, uptime 2). -/
theorem health_ok_uptime_monotone_witness :
    (0 : Int) ≤ 1 ∧ (1 : Int) ≤ 2 ∧
    ((dispatch 5 1 "GET" "/api/health").status = 200 ∧
     getField (dispatch 5 1 "GET" "/api/health").body "status" =
       some (.str "ok") ∧
     ∃ v1 v2 : Int,
       getField (dispatch 5 1 "GET" "/api/health").body "uptime" =
         some (.num v1) ∧
       getField (dispatch 7 2 "GET" "/api/health").body "uptime" =
         some (.num v2) ∧
       0 ≤ v1 ∧ v1 ≤ v2) :=
  ⟨by decide, by decide,
   health_ok_uptime_monotone 5 1 7 2 (by decide) (by decide)⟩

/-- C7: two executions of the dispatcher on the same GET request under
different clock readings agree on the status code and on the whole body
once the timestamp and uptime fields are erased. -/
theorem get_deterministic_up_to_time (n1 u1 n2 u2 : Int) (path : String) :
    (dispatch n1 u1 "GET" path).status = (dispatch n2 u2 "GET" path).status ∧
    scrubTime (dispatch n1 u1 "GET" path).body =
      scrubTime (dispatch n2 u2 "GET" path).body := by
  by_cases h1 : path = "/"
  · subst h1; exact ⟨rfl, rfl⟩
  · by_cases h2 : path = "/api/health"
    · subst h2; exact ⟨rfl, rfl⟩
    · cases hid : extractUserId path with
      | none =>
          constructor <;> simp [dispatch, runRoutes, h1, h2, hid, finishChain]
      | some id =>
          constructor <;> simp [dispatch, runRoutes, h1, h2, hid, finishChain]

/-- C9: routing never produces a fault — the three handlers cannot throw,
so the internal-fault branch of the chain is dead — and every response of
the application carries status exactly 200 or 404; none is 500. -/
theorem handlers_never_fault_no_500 (now uptime : Int) (method path : String) :
    (∀ e : Fault, runRoutes now uptime method path ≠ some (.fault e)) ∧
    ((dispatch now uptime method path).status = 200 ∨
     (dispatch now uptime method path).status = 404) := by
  rcases runRoutes_shape now uptime method path with h | h | h | ⟨id, h⟩
  · exact ⟨fun e he => by simp [h] at he,
           Or.inr (by simp [dispatch, h, finishChain, notFoundResponse])⟩
  · exact ⟨fun e he => by simp [h] at he,
           Or.inl (by simp [dispatch, h, finishChain, homeHandler])⟩
  · exact ⟨fun e he => by simp [h] at he,
           Or.inl (by simp [dispatch, h, finishChain, healthHandler])⟩
  · refine ⟨fun e he => by simp [h] at he, ?_⟩
    by_cases hid : id = "123"
    · exact Or.inl (by simp [dispatch, h, finishChain, userHandler, hid])
    · exact Or.inr (by simp [dispatch, h, finishChain, userHandler, hid])

end CicdDemo
